import Mathlib

/-!
Verification of the generation-request layer of the Comfyui_o1key plugin
(`utils.py` and the node modules under `nodes/`).

The Python sources are shallowly embedded: every model table, request
builder, response extractor and retry loop below is translated directly
from the corresponding Python function (named after it where possible).
Python strings are `String`, but all character-level manipulation
(lower-casing, substring search, padding, regex-like scanning) is done on
`List Char` with executable helpers, because the claims are settled by
evaluating these definitions on concrete inputs.
-/

namespace O1Key

/-! ## Character and string helpers (semantics of the Python primitives used) -/

/-- Lower-case a character, as Python `str.lower` does for ASCII
(the model identifiers and size tags in this repository are ASCII). -/
def lowerChar (c : Char) : Char := c.toLower

/-- Lower-case a string (Python `str.lower`). -/
def strLower (s : String) : String := String.mk (s.data.map lowerChar)

/-- Upper-case a string (Python `str.upper`), used for the `imageSize` tag. -/
def strUpper (s : String) : String := String.mk (s.data.map Char.toUpper)

/-- `startsWithSeq pat cs` is true iff `pat` is a prefix of `cs`
(Python `str.startswith`). -/
def startsWithSeq : List Char → List Char → Bool
  | [], _ => true
  | _ :: _, [] => false
  | p :: ps, c :: cs => p == c && startsWithSeq ps cs

/-- `hasSubSeq pat cs` is true iff `pat` occurs contiguously inside `cs`
(Python `in` on strings). -/
def hasSubSeq (pat : List Char) : List Char → Bool
  | [] => startsWithSeq pat []
  | c :: cs => startsWithSeq pat (c :: cs) || hasSubSeq pat cs

/-- `endsWithSeq suf cs` is true iff `suf` is a suffix of `cs`
(Python `str.endswith`). -/
def endsWithSeq (suf cs : List Char) : Bool :=
  startsWithSeq suf.reverse cs.reverse

/-- Python `s[:-n]` on a string, as used for stripping the `-url` suffix. -/
def dropRightSeq (cs : List Char) (n : Nat) : List Char :=
  cs.take (cs.length - n)

/-- Python dictionary lookup `d.get(k)` over an association list. -/
def dictGet (fields : List (String × String)) (k : String) : Option String :=
  (fields.find? (fun kv => kv.1 == k)).map (fun kv => kv.2)

/-- Python truthiness of an optional string argument:
`None` and the empty string are falsy.  `pyStrOr o d` is Python `o or d`. -/
def pyStrOr (o : Option String) (d : String) : String :=
  match o with
  | none => d
  | some s => if s.isEmpty then d else s

/-! ## Model tables and protocol selection (utils.py, lines 142-249) -/

/-- `API_BASE_URL` module constant of `utils.py`. -/
def API_BASE_URL : String := "https://api.o1key.com"

/-- `MODEL_NAME_MAPPING` of `utils.py` (UI name -> official API name). -/
def MODEL_NAME_MAPPING : List (String × String) :=
  [("gemini-3-pro-image-preview-url", "gemini-3-pro-image-preview-url")]

/-- `GEMINI_URL_MODELS` of `utils.py`. -/
def GEMINI_URL_MODELS : List String := ["gemini-3-pro-image-preview-url"]

/-- `GEMINI_B64_MODELS` of `utils.py` (empty in the source). -/
def GEMINI_B64_MODELS : List String := []

/-- `ASPECT_RATIO_TO_1K_SIZE` of `utils.py`: aspect ratio -> "WxH" string. -/
def ASPECT_RATIO_TO_1K_SIZE : List (String × String) :=
  [("1:1", "1024x1024"), ("2:3", "848x1264"), ("3:2", "1264x848"),
   ("3:4", "896x1200"), ("4:3", "1200x896"), ("4:5", "928x1152"),
   ("5:4", "1152x928"), ("9:16", "768x1376"), ("16:9", "1376x768"),
   ("21:9", "1584x672")]

/-- `get_official_model_name` of `utils.py`. -/
def get_official_model_name (display_name : String) : String :=
  (dictGet MODEL_NAME_MAPPING display_name).getD display_name

/-- `is_openai_format_model` of `utils.py`: a model uses the OpenAI-style
images protocol unless `"gemini" in model.lower()`.  The `network_url`
parameter is kept only for signature compatibility and is ignored. -/
def is_openai_format_model (model : String) (network_url : Option String) : Bool :=
  !(hasSubSeq "gemini".data (strLower model).data)

/-- `get_openai_model_and_size` of `utils.py`: resolves the aspect ratio via
the static table (unknown ratios fall back to "1024x1024") and folds the
resolution tier into a hard-coded base model name. -/
def get_openai_model_and_size (model aspect_ratio : String) (image_size : Option String) :
    String × String :=
  let size := (dictGet ASPECT_RATIO_TO_1K_SIZE aspect_ratio).getD "1024x1024"
  let base_model := "gemini-3-pro-image-preview"
  match image_size with
  | none => (base_model ++ "-url", size)
  | some sz =>
    if sz == "1K" then (base_model ++ "-url", size)
    else (base_model ++ "-" ++ strLower sz ++ "-url", size)

/-! ## Request construction (utils.py: `call_nano_banana_api`,
`call_openai_format_api`, `_call_openai_image_generation`,
`_call_openai_image_edit`).

The builders below reproduce the endpoint URL, the header list and the
complete outgoing payload of each of the three HTTP calls the code can
make.  The multipart files of the edit call are kept as
(filename, base64 payload) pairs; the code base64-decodes the payload
into bytes just before sending, which is a bijective re-encoding. -/

/-- One entry of the native `contents[0].parts` list. -/
inductive ReqPart where
  | textPart (text : String)
  | inlinePart (mime_type : String) (data : String)
  deriving DecidableEq, Repr

/-- The `generationConfig` block of the native protocol
(`imageConfig.aspectRatio`, `imageConfig.imageSize`, `responseModalities`). -/
structure GenConfig where
  aspect_ratio : String
  image_size : Option String
  response_modalities : Option (List String)
  deriving DecidableEq, Repr

/-- The complete outgoing request: endpoint URL, headers, payload. -/
inductive BuiltRequest where
  | geminiGenerate (url : String) (headers : List (String × String))
      (role : Option String) (parts : List ReqPart) (config : GenConfig)
  | openaiGenerations (url : String) (headers : List (String × String))
      (model prompt size response_format : String)
  | openaiEdits (url : String) (headers : List (String × String))
      (files : List (String × String))
      (model prompt size response_format : String)
  deriving DecidableEq, Repr

/-- Sequentially named multipart file entries `image_{idx}.png`
built by `_call_openai_image_edit`. -/
def editFiles (reference_images_base64 : List String) : List (String × String) :=
  (reference_images_base64.enum).map
    (fun p => ("image_" ++ toString p.1 ++ ".png", p.2))

/-- `call_nano_banana_api` of `utils.py`, restricted to what it puts on the
wire (the transport call itself is outside the embedding).  Routing,
model-name resolution, endpoint and payload construction follow the source
line by line; the `seed` parameter is accepted but never used (the line
adding it to `generationConfig` is commented out in the source). -/
def call_nano_banana_api_request (prompt model aspect_ratio : String)
    (image_size : Option String) (seed : Option Int) (api_key : String)
    (reference_images_base64 : List String) (response_format : Option String)
    (network_url : Option String) : BuiltRequest :=
  if is_openai_format_model model network_url then
    -- OpenAI-format branch: call_openai_format_api
    let ms := get_openai_model_and_size model aspect_ratio
        (some (pyStrOr image_size "1K"))
    let base_url := pyStrOr network_url API_BASE_URL
    let rf := (response_format.getD "url")
    if reference_images_base64.isEmpty then
      .openaiGenerations (base_url ++ "/v1/images/generations")
        [("Authorization", "Bearer " ++ api_key),
         ("Content-Type", "application/json")]
        ms.1 prompt ms.2 rf
    else
      .openaiEdits (base_url ++ "/v1/images/edits")
        [("Authorization", "Bearer " ++ api_key)]
        (editFiles reference_images_base64)
        ms.1 prompt ms.2 rf
  else
    -- native Gemini branch
    let is_gemini_url_model := GEMINI_URL_MODELS.contains model
    let official0 := get_official_model_name model
    let official :=
      match image_size with
      | none => official0
      | some sz =>
        if endsWithSeq "-url".data official0.data && !sz.isEmpty
            && !is_gemini_url_model && (sz == "2K" || sz == "4K") then
          String.mk (dropRightSeq official0.data 4) ++ "-" ++ strLower sz ++ "-url"
        else official0
    let base_url := pyStrOr network_url API_BASE_URL
        ++ "/v1beta/models/" ++ official ++ ":generateContent"
    let parts := ReqPart.textPart prompt ::
      reference_images_base64.map (fun r => ReqPart.inlinePart "image/png" r)
    let image_size_field :=
      match image_size with
      | none => none
      | some sz => if sz.isEmpty then none else some (strUpper sz)
    let config : GenConfig :=
      { aspect_ratio := aspect_ratio
        image_size := image_size_field
        response_modalities :=
          if is_gemini_url_model then some ["IMAGE"] else none }
    let role := if is_gemini_url_model then some "user" else none
    .geminiGenerate base_url
      [("Authorization", "Bearer " ++ api_key),
       ("Content-Type", "application/json")]
      role parts config

/-- The two wire protocols of the spec's `ProtocolVariant`. -/
inductive ProtocolVariant where
  | nativeContents
  | openaiImages
  deriving DecidableEq, Repr

/-- Which protocol a built request belongs to (both OpenAI endpoints —
generations and edits — are the OpenAI-style images protocol). -/
def protocolOf : BuiltRequest → ProtocolVariant
  | .geminiGenerate .. => .nativeContents
  | .openaiGenerations .. => .openaiImages
  | .openaiEdits .. => .openaiImages

/-- C1: protocol selection is a total, deterministic, pure function of the
model identifier alone: every model string containing the substring
"gemini" (case-insensitively) is routed to the native contents/parts
protocol, every other identifier is routed to the OpenAI-style images
protocol, and the chosen protocol never depends on the prompt, reference
images, seed, response-format preference, credentials or network route. -/
theorem c1_protocol_selection_pure (model : String)
    (p p' a a' : String) (sz sz' : Option String) (sd sd' : Option Int)
    (k k' : String) (refs refs' : List String) (rf rf' : Option String)
    (net net' : Option String) :
    protocolOf (call_nano_banana_api_request p model a sz sd k refs rf net)
      = (if hasSubSeq "gemini".data (strLower model).data
         then ProtocolVariant.nativeContents else ProtocolVariant.openaiImages)
    ∧ protocolOf (call_nano_banana_api_request p model a sz sd k refs rf net)
      = protocolOf (call_nano_banana_api_request p' model a' sz' sd' k' refs' rf' net') := by
  have key : ∀ (p a : String) (sz : Option String) (sd : Option Int) (k : String)
      (refs : List String) (rf net : Option String),
      protocolOf (call_nano_banana_api_request p model a sz sd k refs rf net)
        = (if hasSubSeq "gemini".data (strLower model).data
           then ProtocolVariant.nativeContents else ProtocolVariant.openaiImages) := by
    intro p a sz sd k refs rf net
    unfold call_nano_banana_api_request is_openai_format_model
    by_cases h : hasSubSeq "gemini".data (strLower model).data
    · simp [h, protocolOf]
    · simp [h]
      split <;> rfl
  refine ⟨key p a sz sd k refs rf net, ?_⟩
  rw [key p a sz sd k refs rf net, key p' a' sz' sd' k' refs' rf' net']

/-- C10: the outgoing request — endpoint URL, headers and full payload —
is independent of the seed value: two builder invocations whose arguments
differ only in the seed produce identical requests (the seed is accepted
by the API entry point but never placed into the native
`generationConfig` nor into either OpenAI-format body). -/
theorem c10_seed_never_sent (p model a : String) (sz : Option String)
    (seed seed' : Option Int) (k : String) (refs : List String)
    (rf net : Option String) :
    call_nano_banana_api_request p model a sz seed k refs rf net
      = call_nano_banana_api_request p model a sz seed' k refs rf net := rfl

/-! ## Base64 repair (utils.py: `decode_base64_image`, lines 1059-1099)

`decode_base64_image` repairs its input string before handing it to the
underlying base64 decoder: it strips a `data:` URI prefix up to the first
comma, strips surrounding whitespace, and right-pads with `=` to a length
that is a multiple of four.  The repair stage is embedded below on
`List Char`; the actual byte decoding and PIL image construction are the
underlying decoder outside this layer. -/

/-- Python `str.strip` whitespace set. -/
def isPySpace (c : Char) : Bool :=
  c == ' ' || c == '\t' || c == '\n' || c == '\r' || c == '\x0b' || c == '\x0c'

/-- Drop everything up to and including the first comma
(Python `find(',')` followed by slicing), `none` when there is no comma. -/
def dropThroughComma : List Char → Option (List Char)
  | [] => none
  | c :: cs => if c == ',' then some cs else dropThroughComma cs

/-- Step 1 of `decode_base64_image`: if the string starts with `data:`,
drop everything up to the first comma (kept unchanged when no comma). -/
def stripDataUri (cs : List Char) : List Char :=
  if startsWithSeq "data:".data cs then
    match dropThroughComma cs with
    | some rest => rest
    | none => cs
  else cs

/-- Step 2 of `decode_base64_image`: Python `str.strip()`. -/
def stripPySpaces (cs : List Char) : List Char :=
  ((cs.dropWhile isPySpace).reverse.dropWhile isPySpace).reverse

/-- Step 3 of `decode_base64_image`: right-pad with `=` until the length
is a multiple of four (no padding added when it already is). -/
def padBase64 (cs : List Char) : List Char :=
  if cs.length % 4 == 0 then cs else cs ++ List.replicate (4 - cs.length % 4) '='

/-- The complete repair stage of `decode_base64_image`, applied to the
input string before the underlying base64 decoder is invoked. -/
def decode_base64_image_normalize (cs : List Char) : List Char :=
  padBase64 (stripPySpaces (stripDataUri cs))

/-- The standard base64 alphabet (including the `=` padding char). -/
def isBase64Char (c : Char) : Bool :=
  ('A' ≤ c && c ≤ 'Z') || ('a' ≤ c && c ≤ 'z') || ('0' ≤ c && c ≤ '9')
    || c == '+' || c == '/' || c == '='

lemma startsWithSeq_mem {pat cs : List Char} (h : startsWithSeq pat cs = true) :
    ∀ p ∈ pat, p ∈ cs := by
  induction pat generalizing cs with
  | nil => simp
  | cons p ps ih =>
    cases cs with
    | nil => simp [startsWithSeq] at h
    | cons c cs' =>
      simp only [startsWithSeq, Bool.and_eq_true, beq_iff_eq] at h
      rcases h with ⟨h1, h2⟩
      intro q hq
      rcases List.mem_cons.mp hq with rfl | hq'
      · simp [h1]
      · exact List.mem_cons_of_mem _ (ih h2 q hq')

lemma base64Char_not_space {c : Char} (h : isBase64Char c = true) :
    isPySpace c = false := by
  by_contra hx
  have hx' : isPySpace c = true := by simpa using hx
  have hc : c = ' ' ∨ c = '\t' ∨ c = '\n' ∨ c = '\r' ∨ c = '\x0b' ∨ c = '\x0c' := by
    simpa [isPySpace, or_assoc] using hx'
  rcases hc with rfl | rfl | rfl | rfl | rfl | rfl <;> exact absurd h (by decide)

lemma stripDataUri_of_base64 {cs : List Char} (h : cs.all isBase64Char = true) :
    stripDataUri cs = cs := by
  have hs : startsWithSeq "data:".data cs = false := by
    by_contra hx
    have hx' : startsWithSeq "data:".data cs = true := by simpa using hx
    have hcol : ':' ∈ cs := startsWithSeq_mem hx' ':' (by decide)
    have := List.all_eq_true.mp h ':' hcol
    exact absurd this (by decide)
  simp [stripDataUri, hs]

lemma dropWhile_of_no_space {cs : List Char}
    (h : ∀ c ∈ cs, isPySpace c = false) : cs.dropWhile isPySpace = cs := by
  cases cs with
  | nil => rfl
  | cons c cs' => simp [List.dropWhile, h c (List.mem_cons_self c cs')]

lemma stripPySpaces_of_base64 {cs : List Char} (h : cs.all isBase64Char = true) :
    stripPySpaces cs = cs := by
  have hns : ∀ c ∈ cs, isPySpace c = false := fun c hc =>
    base64Char_not_space (List.all_eq_true.mp h c hc)
  unfold stripPySpaces
  rw [dropWhile_of_no_space hns, dropWhile_of_no_space (by simpa using hns),
    List.reverse_reverse]

lemma padBase64_length (cs : List Char) : (padBase64 cs).length % 4 = 0 := by
  unfold padBase64
  split
  · next h => simpa using h
  · next h =>
    have h' : cs.length % 4 ≠ 0 := by simpa using h
    have hlt : cs.length % 4 < 4 := Nat.mod_lt _ (by omega)
    simp only [List.length_append, List.length_replicate]
    omega

lemma padBase64_of_mod {cs : List Char} (h : cs.length % 4 = 0) :
    padBase64 cs = cs := by simp [padBase64, h]

/-- C6: the base64 repair of `decode_base64_image` (i) always yields a
string whose length is a multiple of four, (ii) leaves an already
correctly padded base64 string unchanged (never double-pads), (iii) is
idempotent on base64-alphabet input, (iv) restores a string missing
1–3 trailing `=` padding characters to its fully padded form, and (v)
strips a `data:image/...;base64,` prefix, decoding the same payload the
prefix carried. -/
theorem c6_base64_repair :
    (∀ cs : List Char, (decode_base64_image_normalize cs).length % 4 = 0)
    ∧ (∀ cs : List Char, cs.all isBase64Char = true → cs.length % 4 = 0 →
        decode_base64_image_normalize cs = cs)
    ∧ (∀ cs : List Char, cs.all isBase64Char = true →
        decode_base64_image_normalize (decode_base64_image_normalize cs)
          = decode_base64_image_normalize cs)
    ∧ (∀ (t : List Char) (k : Nat), t.all isBase64Char = true →
        1 ≤ k → k ≤ 3 → (t.length + k) % 4 = 0 →
        decode_base64_image_normalize t = t ++ List.replicate k '=')
    ∧ (∀ t : List Char, t.all isBase64Char = true →
        decode_base64_image_normalize ("data:image/png;base64,".data ++ t)
          = decode_base64_image_normalize t) := by
  have hplain : ∀ cs : List Char, cs.all isBase64Char = true →
      decode_base64_image_normalize cs = padBase64 cs := by
    intro cs h
    unfold decode_base64_image_normalize
    rw [stripDataUri_of_base64 h, stripPySpaces_of_base64 h]
  have hkeep : ∀ cs : List Char, cs.all isBase64Char = true → cs.length % 4 = 0 →
      decode_base64_image_normalize cs = cs := by
    intro cs h hm
    rw [hplain cs h, padBase64_of_mod hm]
  have hallpad : ∀ cs : List Char, cs.all isBase64Char = true →
      (padBase64 cs).all isBase64Char = true := by
    intro cs h
    unfold padBase64
    split
    · exact h
    · rw [List.all_append, h, Bool.true_and]
      exact List.all_eq_true.mpr (fun c hc => by
        rw [List.eq_of_mem_replicate hc]; decide)
  refine ⟨?_, hkeep, ?_, ?_, ?_⟩
  · intro cs
    exact padBase64_length _
  · intro cs h
    have h2 : (decode_base64_image_normalize cs).all isBase64Char = true := by
      rw [hplain cs h]; exact hallpad cs h
    exact hkeep _ h2 (padBase64_length _)
  · intro t k h h1 h3 hm
    have hmod : t.length % 4 = 4 - k := by omega
    rw [hplain t h]
    unfold padBase64
    rw [hmod]
    have hne : ((4 - k) == 0) = false := by
      cases k with
      | zero => omega
      | succ k' => simp; omega
    simp only [hne, Bool.false_eq_true, if_false]
    have : 4 - (4 - k) = k := by omega
    rw [this]
  · intro t h
    have h1 : startsWithSeq "data:".data ("data:image/png;base64,".data ++ t)
        = true := rfl
    have h2 : dropThroughComma ("data:image/png;base64,".data ++ t)
        = some t := rfl
    unfold decode_base64_image_normalize
    rw [stripDataUri_of_base64 h]
    unfold stripDataUri
    rw [h1, h2]
    simp

/-- Witness for C6 at concrete inputs: an already padded string is kept,
a string missing two padding characters is restored, and a data-URI
prefixed payload strips to the bare payload. -/
theorem c6_base64_repair_witness :
    decode_base64_image_normalize "QUJD".data = "QUJD".data
    ∧ decode_base64_image_normalize "QUJDRQ".data = "QUJDRQ".data ++ List.replicate 2 '='
    ∧ decode_base64_image_normalize ("data:image/png;base64,".data ++ "QUJD".data)
        = decode_base64_image_normalize "QUJD".data := by
  refine ⟨c6_base64_repair.2.1 _ (by decide) (by decide),
    c6_base64_repair.2.2.2.1 "QUJDRQ".data 2 (by decide) (by decide) (by decide) (by decide),
    c6_base64_repair.2.2.2.2 "QUJD".data (by decide)⟩

/-! ## Image download with retry (utils.py: `download_image_from_url`,
lines 1102-1187)

The retry loop is embedded as a deterministic runner over an oracle
giving the outcome of each attempt (the network is the only source of
nondeterminism).  Attempt numbers start at 1, as in the Python
`range(1, max_retries + 1)` loop; the 2-second `time.sleep(2)` executed
at the top of every attempt after the first is tracked in
`sleepSeconds`. -/

/-- Possible outcome of one GET attempt, mirroring the `except` arms of
`download_image_from_url`: success, `ConnectTimeout`, `ReadTimeout`,
`ConnectionError`, `HTTPError` (raised by `raise_for_status`), and the
final catch-all `except Exception` (e.g. an unreadable image payload). -/
inductive DownloadAttempt (α : Type) where
  | ok (img : α)
  | connectTimeout
  | readTimeout
  | connectionError (msg : String)
  | httpError (status : Nat)
  | otherError (msg : String)
  deriving DecidableEq, Repr

/-- The `last_error` description each handler records (none for a success
or for the HTTP-status arm, which raises immediately). -/
def attemptErrDesc {α : Type} : DownloadAttempt α → Option String
  | .connectTimeout => some "连接超时，无法连接到图片服务器"
  | .readTimeout => some "读取超时，下载图片时间过长"
  | .connectionError m => some ("网络连接错误: " ++ m)
  | .otherError m => some m
  | .ok _ => none
  | .httpError _ => none

/-- The attempt outcomes after which the code continues to the next
attempt: every failure arm except the HTTP-status arm. -/
def codeRetries {α : Type} : DownloadAttempt α → Bool
  | .ok _ => false
  | .httpError _ => false
  | _ => true

/-- The only failure kinds the spec claims are retried ("connection
timeouts, read timeouts, and generic connection errors"); used to compare
the claim against `codeRetries`. -/
def claimRetryableKinds {α : Type} : DownloadAttempt α → Bool
  | .connectTimeout => true
  | .readTimeout => true
  | .connectionError _ => true
  | _ => false

/-- How the download call ends: a decoded image, the immediate
`HTTPError` failure ("图片链接可能已过期"), or retry exhaustion carrying
the last recorded error description. -/
inductive DownloadOutcome (α : Type) where
  | success (img : α)
  | terminalHttp (status : Nat)
  | exhausted (lastError : Option String)
  deriving DecidableEq, Repr

/-- Final state of the download loop: outcome, number of attempts that
were started, and total seconds slept between attempts. -/
structure DownloadTrace (α : Type) where
  outcome : DownloadOutcome α
  attemptsMade : Nat
  sleepSeconds : Nat
  deriving DecidableEq, Repr

/-- One-step/recursion structure of the `for attempt in range(1,
max_retries + 1)` loop of `download_image_from_url`. -/
def downloadGo {α : Type} (oracle : Nat → DownloadAttempt α) :
    Nat → Nat → Option String → Nat → Nat → DownloadTrace α
  | 0, _, lastErr, s, made => ⟨.exhausted lastErr, made, s⟩
  | remaining + 1, attempt, lastErr, s, made =>
    let s' := if attempt > 1 then s + 2 else s
    match oracle attempt with
    | .ok img => ⟨.success img, made + 1, s'⟩
    | .httpError st => ⟨.terminalHttp st, made + 1, s'⟩
    | e => downloadGo oracle remaining (attempt + 1) (attemptErrDesc e) s' (made + 1)

/-- `download_image_from_url` of `utils.py`, as a function of the
per-attempt outcomes; `max_retries` defaults to 3 at every call site. -/
def download_image_from_url_run {α : Type} (oracle : Nat → DownloadAttempt α)
    (max_retries : Nat) : DownloadTrace α :=
  downloadGo oracle max_retries 1 none 0 0

/-- The message built after exhausting all retries; it embeds the
description of the last underlying error (Python renders `None` when no
attempt ever ran). -/
def downloadFailureMessage (lastError : Option String) : String :=
  "❌ 图片下载失败\n\n💡 提示：\n   • 图片已在服务端生成成功\n   • 但下载图片时遇到网络问题\n   • 错误: "
    ++ lastError.getD "None" ++ "\n   • 建议检查网络连接后重试"

/-- Oracle refuting C5 as stated: the first attempt fails with an error
that is neither a timeout, a connection error, nor an HTTP status error
(e.g. an unreadable image payload caught by the catch-all handler), and
the second attempt succeeds. -/
def c5CexOracle : Nat → DownloadAttempt Unit :=
  fun n => if n == 1 then .otherError "invalid image payload" else .ok ()

/-- C5 counterexample: the claim says only connection timeouts, read
timeouts and generic connection errors are retried, but the code's
catch-all `except Exception` arm also retries any other error: after a
first attempt failing with a non-connection, non-timeout, non-HTTP error,
a second attempt is still made (and here succeeds). -/
theorem c5_download_retry_counterexample :
    c5CexOracle 1 = DownloadAttempt.otherError "invalid image payload"
    ∧ claimRetryableKinds (c5CexOracle 1) = false
    ∧ (download_image_from_url_run c5CexOracle 3).attemptsMade = 2
    ∧ (download_image_from_url_run c5CexOracle 3).outcome
        = DownloadOutcome.success () := by
  refine ⟨rfl, rfl, rfl, rfl⟩

/-- Full three-attempt unrolling of the retry loop. -/
lemma download_run3_eval {α : Type} (oracle : Nat → DownloadAttempt α) :
    download_image_from_url_run oracle 3 =
      match oracle 1 with
      | .ok img => ⟨.success img, 1, 0⟩
      | .httpError st => ⟨.terminalHttp st, 1, 0⟩
      | _ =>
        match oracle 2 with
        | .ok img => ⟨.success img, 2, 2⟩
        | .httpError st => ⟨.terminalHttp st, 2, 2⟩
        | _ =>
          match oracle 3 with
          | .ok img => ⟨.success img, 3, 4⟩
          | .httpError st => ⟨.terminalHttp st, 3, 4⟩
          | e => ⟨.exhausted (attemptErrDesc e), 3, 4⟩ := by
  rcases h1 : oracle 1 <;> rcases h2 : oracle 2 <;> rcases h3 : oracle 3 <;>
    simp [download_image_from_url_run, downloadGo, h1, h2, h3]

/-- C5 amended: for every URL (modelled by the oracle of attempt
outcomes) the download makes at most 3 attempts, sleeps a fixed 2 seconds
before each retry, continues after every failure except an HTTP status
error (i.e. timeouts, connection errors, and any other error are all
retried), terminates immediately without retry on an HTTP-level error
status, and after exhausting all retries fails carrying the description
of the last underlying error in its message. -/
theorem c5_download_retry_amended {α : Type} (oracle : Nat → DownloadAttempt α) :
    (∀ s : String, ∃ before after,
        downloadFailureMessage (some s) = before ++ s ++ after)
    ∧ (download_image_from_url_run oracle 3).attemptsMade ≤ 3
    ∧ 1 ≤ (download_image_from_url_run oracle 3).attemptsMade
    ∧ (download_image_from_url_run oracle 3).sleepSeconds
        = 2 * ((download_image_from_url_run oracle 3).attemptsMade - 1)
    ∧ (1 < (download_image_from_url_run oracle 3).attemptsMade →
        codeRetries (oracle 1) = true)
    ∧ (2 < (download_image_from_url_run oracle 3).attemptsMade →
        codeRetries (oracle 2) = true)
    ∧ (∀ img, oracle ((download_image_from_url_run oracle 3).attemptsMade)
          = DownloadAttempt.ok img →
        (download_image_from_url_run oracle 3).outcome = DownloadOutcome.success img)
    ∧ (∀ st, oracle ((download_image_from_url_run oracle 3).attemptsMade)
          = DownloadAttempt.httpError st →
        (download_image_from_url_run oracle 3).outcome = DownloadOutcome.terminalHttp st)
    ∧ (codeRetries (oracle ((download_image_from_url_run oracle 3).attemptsMade)) = true →
        (download_image_from_url_run oracle 3).attemptsMade = 3
        ∧ (download_image_from_url_run oracle 3).outcome
            = DownloadOutcome.exhausted (attemptErrDesc (oracle 3))) := by
  refine ⟨fun s => ⟨_, _, rfl⟩, ?_⟩
  have he := download_run3_eval oracle
  rcases h1 : oracle 1 <;> rcases h2 : oracle 2 <;> rcases h3 : oracle 3 <;>
    simp only [h1, h2, h3] at he <;>
    simp [he, h1, h2, h3, codeRetries]

/-- Witness for C5 amended at a concrete run: three retryable failures
(connect timeout, read timeout, connection error) exhaust the retries
after exactly 3 attempts and 4 seconds of sleeping, and the failure
carries the last error description. -/
theorem c5_download_retry_amended_witness :
    (download_image_from_url_run
        (fun n => if n == 1 then DownloadAttempt.connectTimeout
          else if n == 2 then DownloadAttempt.readTimeout
          else (DownloadAttempt.connectionError "peer reset" : DownloadAttempt Unit)) 3).attemptsMade = 3
    ∧ (download_image_from_url_run
        (fun n => if n == 1 then DownloadAttempt.connectTimeout
          else if n == 2 then DownloadAttempt.readTimeout
          else (DownloadAttempt.connectionError "peer reset" : DownloadAttempt Unit)) 3).outcome
        = DownloadOutcome.exhausted (some ("网络连接错误: " ++ "peer reset"))
    ∧ (download_image_from_url_run
        (fun n => if n == 1 then DownloadAttempt.connectTimeout
          else if n == 2 then DownloadAttempt.readTimeout
          else (DownloadAttempt.connectionError "peer reset" : DownloadAttempt Unit)) 3).sleepSeconds = 4 := by
  have h := c5_download_retry_amended
    (fun n => if n == 1 then DownloadAttempt.connectTimeout
      else if n == 2 then DownloadAttempt.readTimeout
      else (DownloadAttempt.connectionError "peer reset" : DownloadAttempt Unit))
  have h8 := h.2.2.2.2.2.2.2.2 (by decide)
  refine ⟨h8.1, by rw [h8.2]; rfl, ?_⟩
  have hs := h.2.2.2.1
  rw [h8.1] at hs
  simpa using hs

/-! ## Native response extraction (utils.py:
`extract_image_from_gemini_response`, lines 884-1056)

The JSON response body is modelled structurally: a list of candidates,
each with an optional `finishReason` string and a `content` field that is
absent, an empty object, a non-empty object without `parts`, or an object
with a list of parts.  A part may carry `inline_data` and/or `inlineData`
(each either a JSON object of string fields or a bare string) and/or a
`text` field.  The two regex searches of the URL fallback are embedded as
executable scanners with Python `re.search` semantics (leftmost match,
lazy/greedy backtracking as in the pattern). -/

/-- A JSON value in an inline-data position: an object of string fields
(the standard shape) or a bare string (the SVIP shape). -/
inductive PyVal where
  | pdict (fields : List (String × String))
  | pstr (s : String)
  deriving DecidableEq, Repr

/-- Python truthiness of such a value ({} and "" are falsy). -/
def pyTruthy : PyVal → Bool
  | .pdict fields => !fields.isEmpty
  | .pstr s => !s.isEmpty

/-- One element of `candidates[0].content.parts`. -/
structure GPart where
  inline_data : Option PyVal := none
  inlineData : Option PyVal := none
  text : Option String := none
  deriving DecidableEq, Repr

/-- `part.get('inline_data') or part.get('inlineData')`, evaluated only
when at least one of the two keys is present (the loop's `in` test). -/
def partInlineVal (p : GPart) : Option PyVal :=
  if p.inline_data.isSome || p.inlineData.isSome then
    match p.inline_data with
    | some v => if pyTruthy v then some v else p.inlineData
    | none => p.inlineData
  else none

/-- The base64 payload the first loop extracts from one part, if any:
a dict shape needs a non-empty `data` field; a bare-string shape is used
as is. -/
def partInlineImage (p : GPart) : Option String :=
  match partInlineVal p with
  | some (.pdict fields) =>
    match dictGet fields "data" with
    | some d => if d.isEmpty then none else some d
    | none => none
  | some (.pstr s) => some s
  | none => none

/-- First loop of the extractor: first part with usable inline data. -/
def scanInlineParts : List GPart → Option String
  | [] => none
  | p :: rest =>
    match partInlineImage p with
    | some d => some d
    | none => scanInlineParts rest

/-! ### The markdown image pattern (case-sensitive
search for the first match, lazy inner star, `.` not matching a newline). -/

/-- Split an exact-case `https://` or `http://` scheme off the front. -/
def schemeSplitCS (cs : List Char) : Option (List Char × List Char) :=
  if startsWithSeq "https://".data cs then some ("https://".data, cs.drop 8)
  else if startsWithSeq "http://".data cs then some ("http://".data, cs.drop 7)
  else none

/-- Parse the URL group right after a literal open parenthesis: a scheme,
then one or more non-parenthesis characters, then the closing
parenthesis. -/
def matchMdUrlAt (cs : List Char) : Option (List Char) :=
  match schemeSplitCS cs with
  | none => none
  | some (sch, rest) =>
    let run := rest.takeWhile (fun c => c != ')')
    match rest.drop run.length with
    | ')' :: _ => if run.isEmpty then none else some (sch ++ run)
    | _ => none

/-- After an initial bang-bracket, find the first closing bracket
(extending lazily, never across a newline) that is followed by an open
parenthesis and a well-formed URL group. -/
def mdAfterBracket : List Char → Option (List Char)
  | [] => none
  | c :: cs =>
    if c == ']' then
      match cs with
      | '(' :: cs2 =>
        match matchMdUrlAt cs2 with
        | some url => some url
        | none => mdAfterBracket cs
      | _ => mdAfterBracket cs
    else if c == '\n' then none
    else mdAfterBracket cs

/-- Leftmost match of the markdown image pattern, returning the captured
URL. -/
def findMarkdownImage : List Char → Option (List Char)
  | [] => none
  | c :: cs =>
    match (match c, cs with
           | '!', '[' :: cs2 => mdAfterBracket cs2
           | _, _ => none) with
    | some url => some url
    | none => findMarkdownImage cs

/-! ### The bare image-URL pattern (with the IGNORECASE flag: scheme and
extension match case-insensitively; greedy run of
non-whitespace/non-parenthesis characters, backtracking to the longest
position offering a dot and a known image extension). -/

/-- Case-insensitive prefix test; the pattern is given lower-case. -/
def ciStartsWith : List Char → List Char → Bool
  | [], _ => true
  | _ :: _, [] => false
  | p :: ps, c :: cs => p == lowerChar c && ciStartsWith ps cs

/-- Length of a case-insensitive scheme prefix, if present. -/
def ciSchemeLen (cs : List Char) : Option Nat :=
  if ciStartsWith "https://".data cs then some 8
  else if ciStartsWith "http://".data cs then some 7
  else none

/-- Characters admitted by the pattern's run. -/
def isUrlChar (c : Char) : Bool := !(isPySpace c) && c != ')'

/-- Match a dot followed by one of the five extensions, alternation tried
in the pattern's order, returning the matched length. -/
def extMatchLen (cs : List Char) : Option Nat :=
  match cs with
  | '.' :: rest =>
    if ciStartsWith "png".data rest then some 4
    else if ciStartsWith "jpg".data rest then some 4
    else if ciStartsWith "jpeg".data rest then some 5
    else if ciStartsWith "webp".data rest then some 5
    else if ciStartsWith "gif".data rest then some 4
    else none
  | _ => none

/-- Greedy backtracking of the run: try the longest candidate first. -/
def greedyExtSearch (rest : List Char) : Nat → Option Nat
  | 0 => none
  | k + 1 =>
    match extMatchLen (rest.drop (k + 1)) with
    | some m => some (k + 1 + m)
    | none => greedyExtSearch rest k

/-- Match the bare image-URL pattern at the current position. -/
def plainUrlAt (cs : List Char) : Option (List Char) :=
  match ciSchemeLen cs with
  | none => none
  | some n =>
    let rest := cs.drop n
    match greedyExtSearch rest (rest.takeWhile isUrlChar).length with
    | some total => some (cs.take n ++ rest.take total)
    | none => none

/-- Leftmost match of the bare image-URL pattern. -/
def findPlainImageUrl : List Char → Option (List Char)
  | [] => none
  | c :: cs =>
    match plainUrlAt (c :: cs) with
    | some url => some url
    | none => findPlainImageUrl cs

/-- URL a text part yields: the markdown pattern is tried first, then the
bare-URL pattern. -/
def partTextUrl (p : GPart) : Option String :=
  match p.text with
  | none => none
  | some t =>
    match findMarkdownImage t.data with
    | some url => some (String.mk url)
    | none =>
      match findPlainImageUrl t.data with
      | some url => some (String.mk url)
      | none => none

/-- Second loop of the extractor: first text part containing a URL. -/
def scanTextParts : List GPart → Option String
  | [] => none
  | p :: rest =>
    match partTextUrl p with
    | some u => some u
    | none => scanTextParts rest

/-- The `content` field of a candidate: absent key, empty object,
non-empty object without a `parts` key, or an object with parts. -/
inductive ContentField where
  | absent
  | emptyObj
  | nonEmptyNoParts
  | withParts (parts : List GPart)
  deriving DecidableEq, Repr

/-- `candidates[0]` of the response. -/
structure Candidate where
  finishReason : Option String := none
  content : ContentField := .absent
  deriving DecidableEq, Repr

/-- A decoded 200-status native response body (an absent `candidates` key
and an empty `candidates` array take the same error path and are both
modelled by the empty list). -/
structure GeminiResponse where
  candidates : List Candidate
  deriving DecidableEq, Repr

/-- Successful extraction: an inline base64 payload to decode locally, or
a URL to download. -/
inductive ExtractOk where
  | fromBase64 (data : String)
  | fromUrl (url : String)
  deriving DecidableEq, Repr

/-- The distinct failure exits of the extractor, one per raise site. -/
inductive ExtractErr where
  | missingCandidates
  | malformedFunctionCall
  | abnormalFinish (reason : String)
  | emptyContent
  | malformedStructure
  | noImageFound
  deriving DecidableEq, Repr

/-- The message the abnormal-finish raise site builds
(`reason_messages.get(finish_reason, default)`). -/
def finishReasonMessage (fr : String) : String :=
  if fr == "SAFETY" then "内容被安全过滤器拦截，请修改提示词"
  else if fr == "RECITATION" then "内容因版权问题被拦截"
  else if fr == "OTHER" then "服务器返回未知错误，请稍后重试"
  else "服务器异常终止: " ++ fr

/-- Errors whose message tells the caller the content was filtered
(SAFETY / RECITATION): retrying cannot help, the prompt must change. -/
def isContentFilteredErr : ExtractErr → Bool
  | .abnormalFinish fr => fr == "SAFETY" || fr == "RECITATION"
  | _ => false

/-- Errors whose message advises retrying a transient server problem
(the gateway-style exits). -/
def isTransientGatewayErr : ExtractErr → Bool
  | .malformedFunctionCall => true
  | .emptyContent => true
  | _ => false

/-- `extract_image_from_gemini_response` of `utils.py`. -/
def extract_image_from_gemini_response (resp : GeminiResponse) :
    Except ExtractErr ExtractOk :=
  match resp.candidates with
  | [] => .error .missingCandidates
  | cand :: _ =>
    let fr := cand.finishReason.getD ""
    if fr == "MALFORMED_FUNCTION_CALL" then .error .malformedFunctionCall
    else if !(fr == "") && !(fr == "STOP") && !(fr == "MAX_TOKENS") then
      .error (.abnormalFinish fr)
    else
      match cand.content with
      | .absent => .error .emptyContent
      | .emptyObj => .error .emptyContent
      | .nonEmptyNoParts => .error .malformedStructure
      | .withParts parts =>
        match scanInlineParts parts with
        | some b64 => .ok (.fromBase64 b64)
        | none =>
          match scanTextParts parts with
          | some url => .ok (.fromUrl url)
          | none => .error .noImageFound

lemma scanInlineParts_eq_findSome (parts : List GPart) :
    scanInlineParts parts = parts.findSome? partInlineImage := by
  induction parts with
  | nil => rfl
  | cons p rest ih =>
    simp only [scanInlineParts, List.findSome?_cons, ih]
    cases partInlineImage p <;> rfl

lemma scanTextParts_eq_findSome (parts : List GPart) :
    scanTextParts parts = parts.findSome? partTextUrl := by
  induction parts with
  | nil => rfl
  | cons p rest ih =>
    simp only [scanTextParts, List.findSome?_cons, ih]
    cases partTextUrl p <;> rfl

/-- C2: on a native success body with a normal finish reason, extraction
takes the first part with usable inline data (handling both legal shapes:
an object with a non-empty `data` field and a bare base64 string) in
preference over any URL; only when no part carries usable inline data
does it scan the text parts, trying exactly the markdown image pattern
first and then the bare image-extension URL pattern; and when neither
inline data nor a recognizable URL exists it fails with the
malformed-response error instead of returning an image. -/
theorem c2_native_extraction_fallback (fr : Option String) (parts : List GPart)
    (rest : List Candidate)
    (hfr : fr = none ∨ fr = some "" ∨ fr = some "STOP" ∨ fr = some "MAX_TOKENS") :
    extract_image_from_gemini_response
        ⟨{ finishReason := fr, content := .withParts parts } :: rest⟩
      = (match parts.findSome? partInlineImage with
         | some b => .ok (.fromBase64 b)
         | none =>
           match parts.findSome? partTextUrl with
           | some u => .ok (.fromUrl u)
           | none => .error .noImageFound)
    ∧ (∀ mt d, d.isEmpty = false →
        partInlineImage
          { inline_data := some (.pdict [("mime_type", mt), ("data", d)]) }
          = some d)
    ∧ (∀ s, s.isEmpty = false →
        partInlineImage { inline_data := some (.pstr s) } = some s)
    ∧ (∀ t, partTextUrl { text := some t } =
        (match findMarkdownImage t.data with
         | some url => some (String.mk url)
         | none => (findPlainImageUrl t.data).map String.mk)) := by
  refine ⟨?_, ?_, ?_, ?_⟩
  · rcases hfr with rfl | rfl | rfl | rfl <;>
      simp [extract_image_from_gemini_response, scanInlineParts_eq_findSome,
        scanTextParts_eq_findSome]
  · intro mt d hd
    simp [partInlineImage, partInlineVal, pyTruthy, dictGet, List.find?, hd]
  · intro s hs
    simp [partInlineImage, partInlineVal, pyTruthy, hs]
  · intro t
    simp only [partTextUrl]
    cases findMarkdownImage t.data with
    | some u => rfl
    | none => cases findPlainImageUrl t.data <;> rfl

/-- Witness for C2: a response whose single part carries dict-shape
inline data decodes that base64 payload; a response whose single part
carries only markdown text downloads the embedded URL; an empty parts
list is the malformed-response error. -/
theorem c2_native_extraction_fallback_witness :
    extract_image_from_gemini_response
        ⟨[{ finishReason := some "STOP",
            content := .withParts
              [{ inline_data := some (.pdict
                  [("mime_type", "image/png"), ("data", "QkFTRTY0")]) }] }]⟩
      = .ok (.fromBase64 "QkFTRTY0")
    ∧ extract_image_from_gemini_response
        ⟨[{ finishReason := none,
            content := .withParts
              [{ text := some "done ![image](https://cdn.example.com/i.png)" }] }]⟩
      = .ok (.fromUrl "https://cdn.example.com/i.png")
    ∧ extract_image_from_gemini_response
        ⟨[{ finishReason := some "STOP", content := .withParts [] }]⟩
      = .error .noImageFound := by
  refine ⟨?_, ?_, ?_⟩
  · rw [(c2_native_extraction_fallback (some "STOP") _ []
      (Or.inr (Or.inr (Or.inl rfl)))).1]
    rfl
  · rw [(c2_native_extraction_fallback none _ [] (Or.inl rfl)).1]
    rfl
  · rw [(c2_native_extraction_fallback (some "STOP") [] []
      (Or.inr (Or.inr (Or.inl rfl)))).1]
    rfl

/-- C4: a candidate with finishReason SAFETY or RECITATION extracts to
the content-filtered error (prompt must change; not one of the transient
gateway-style kinds), whereas a MALFORMED_FUNCTION_CALL finishReason and
an empty (or absent) content object each extract to a transient
gateway-style error; in every one of these cases the result is an error,
never an image. -/
theorem c4_finish_reason_classification (cand : Candidate) (rest : List Candidate) :
    (cand.finishReason = some "SAFETY" →
      extract_image_from_gemini_response ⟨cand :: rest⟩
        = .error (.abnormalFinish "SAFETY"))
    ∧ (cand.finishReason = some "RECITATION" →
      extract_image_from_gemini_response ⟨cand :: rest⟩
        = .error (.abnormalFinish "RECITATION"))
    ∧ (cand.finishReason = some "MALFORMED_FUNCTION_CALL" →
      extract_image_from_gemini_response ⟨cand :: rest⟩
        = .error .malformedFunctionCall)
    ∧ ((cand.finishReason = none ∨ cand.finishReason = some ""
          ∨ cand.finishReason = some "STOP" ∨ cand.finishReason = some "MAX_TOKENS") →
       (cand.content = .absent ∨ cand.content = .emptyObj) →
      extract_image_from_gemini_response ⟨cand :: rest⟩ = .error .emptyContent)
    ∧ isContentFilteredErr (.abnormalFinish "SAFETY") = true
    ∧ isContentFilteredErr (.abnormalFinish "RECITATION") = true
    ∧ isTransientGatewayErr (.abnormalFinish "SAFETY") = false
    ∧ isTransientGatewayErr (.abnormalFinish "RECITATION") = false
    ∧ isContentFilteredErr .malformedFunctionCall = false
    ∧ isTransientGatewayErr .malformedFunctionCall = true
    ∧ isContentFilteredErr .emptyContent = false
    ∧ isTransientGatewayErr .emptyContent = true
    ∧ finishReasonMessage "SAFETY" = "内容被安全过滤器拦截，请修改提示词" := by
  refine ⟨?_, ?_, ?_, ?_, rfl, rfl, rfl, rfl, rfl, rfl, rfl, rfl, rfl⟩
  · intro h
    simp [extract_image_from_gemini_response, h]
  · intro h
    simp [extract_image_from_gemini_response, h]
  · intro h
    simp [extract_image_from_gemini_response, h]
  · intro hfr hc
    rcases hfr with h | h | h | h <;> rcases hc with h2 | h2 <;>
      simp [extract_image_from_gemini_response, h, h2]

/-- Witness for C4: concrete responses with finishReason SAFETY and with
an empty content object take the classified error exits. -/
theorem c4_finish_reason_classification_witness :
    extract_image_from_gemini_response
        ⟨[{ finishReason := some "SAFETY", content := .withParts [] }]⟩
      = .error (.abnormalFinish "SAFETY")
    ∧ extract_image_from_gemini_response
        ⟨[{ finishReason := some "STOP", content := .emptyObj }]⟩
      = .error .emptyContent
    ∧ extract_image_from_gemini_response
        ⟨[{ finishReason := some "MALFORMED_FUNCTION_CALL", content := .absent }]⟩
      = .error .malformedFunctionCall := by
  refine ⟨(c4_finish_reason_classification
      { finishReason := some "SAFETY", content := .withParts [] } []).1 rfl,
    (c4_finish_reason_classification
      { finishReason := some "STOP", content := .emptyObj } []).2.2.2.1
      (Or.inr (Or.inr (Or.inl rfl))) (Or.inr rfl),
    (c4_finish_reason_classification
      { finishReason := some "MALFORMED_FUNCTION_CALL", content := .absent } []).2.2.1 rfl⟩

/-! ## Concurrent fan-out collection (nodes/text_to_image.py lines
229-277 and nodes/image_to_image.py lines 284-335)

For batch size N > 1 the node submits N pipelines to a thread pool, each
tagged with its 1-based submission index, and collects completions with
`as_completed` — i.e. in an arbitrary order, modelled as an arbitrary
permutation of the tagged outcomes.  Each completion is either
`(idx, image, None)` or `(idx, None, error)`; successes are accumulated,
failures are formatted as `图片 {idx}: {err}` strings.  If no item
succeeded a single aggregated error is raised from the first three error
summaries; otherwise the successes are sorted by submission index and
concatenated. -/

/-- Result of one fanned-out pipeline, tagged with its submission index. -/
inductive ItemOutcome (α : Type) where
  | success (idx : Nat) (image : α)
  | failure (idx : Nat) (err : String)
  deriving DecidableEq, Repr

/-- The submission index of an outcome. -/
def outcomeIdx {α : Type} : ItemOutcome α → Nat
  | .success i _ => i
  | .failure i _ => i

/-- Whether the outcome carries an image. -/
def isSuccessOutcome {α : Type} : ItemOutcome α → Bool
  | .success _ _ => true
  | .failure _ _ => false

/-- The `all_images` list: `(batch_idx, image)` pairs in completion
order. -/
def collectImages {α : Type} : List (ItemOutcome α) → List (Nat × α)
  | [] => []
  | .success i img :: rest => (i, img) :: collectImages rest
  | .failure _ _ :: rest => collectImages rest

/-- The `errors` list: formatted per-item error summaries in completion
order. -/
def collectErrors {α : Type} : List (ItemOutcome α) → List String
  | [] => []
  | .success _ _ :: rest => collectErrors rest
  | .failure i e :: rest => ("图片 " ++ toString i ++ ": " ++ e) :: collectErrors rest

/-- Ascending comparison on the submission index
(`all_images.sort(key=lambda x: x[0])`). -/
def idxLe {α : Type} (a b : Nat × α) : Prop := a.1 ≤ b.1

/-- Strict version of `idxLe`, used to state that the sorted output is
strictly ordered when indices are distinct. -/
def idxLt {α : Type} (a b : Nat × α) : Prop := a.1 < b.1

instance {α : Type} : DecidableRel (@idxLe α) := fun a b => Nat.decLe a.1 b.1

instance {α : Type} : IsTotal (Nat × α) idxLe := ⟨fun a b => Nat.le_total a.1 b.1⟩

instance {α : Type} : IsTrans (Nat × α) idxLe := ⟨fun _ _ _ => Nat.le_trans⟩

instance {α : Type} : IsAntisymm (Nat × α) idxLt :=
  ⟨fun _ _ h h' => absurd (Nat.lt_trans h h') (Nat.lt_irrefl _)⟩

/-- The sort of `all_images` by original submission index. -/
def sortByIdx {α : Type} (l : List (Nat × α)) : List (Nat × α) :=
  l.insertionSort idxLe

/-- `Except` helpers for stating results. -/
def exceptIsOk {ε α : Type} : Except ε α → Bool
  | .ok _ => true
  | .error _ => false

def exceptOkValue {ε α : Type} : Except ε α → Option α
  | .ok a => some a
  | .error _ => none

/-- The fan-out collection logic shared by the text-to-image and
image-to-image nodes: raise an aggregated error (first three summaries)
when every pipeline failed, otherwise return the images sorted by
submission index. -/
def generate_image_batch {α : Type} (completed : List (ItemOutcome α)) :
    Except (List String) (List α) :=
  let images := collectImages completed
  let errors := collectErrors completed
  if images.isEmpty then .error (errors.take 3)
  else .ok ((sortByIdx images).map Prod.snd)

/-- The exception message raised when every pipeline failed
(`"所有图片生成失败:\n" + "\n".join(errors[:3])`). -/
def allFailedMessage (errors : List String) : String :=
  "所有图片生成失败:\n" ++ String.intercalate "\n" (errors.take 3)

lemma collectImages_eq_filterMap {α : Type} (l : List (ItemOutcome α)) :
    collectImages l = l.filterMap (fun o => match o with
      | .success i img => some (i, img)
      | .failure _ _ => none) := by
  induction l with
  | nil => simp [collectImages]
  | cons o rest ih => cases o <;> simp [collectImages, ih]

lemma collectImages_keys_sublist {α : Type} (l : List (ItemOutcome α)) :
    List.Sublist ((collectImages l).map Prod.fst) (l.map outcomeIdx) := by
  induction l with
  | nil => simp [collectImages]
  | cons o rest ih =>
    cases o with
    | success i img => simpa [collectImages, outcomeIdx] using ih.cons₂ i
    | failure i e => simpa [collectImages, outcomeIdx] using ih.cons i

lemma pairwise_idxLt_of_sorted_nodup {α : Type} {s : List (Nat × α)}
    (hs : List.Pairwise idxLe s) (hn : (s.map Prod.fst).Nodup) :
    List.Pairwise idxLt s := by
  have hne : List.Pairwise (fun a b : Nat × α => a.1 ≠ b.1) s :=
    List.pairwise_map.mp hn
  exact (hs.and hne).imp (fun h => Nat.lt_of_le_of_ne h.1 h.2)

lemma sortByIdx_keys_nodup {α : Type} {l : List (ItemOutcome α)}
    (hnodup : (l.map outcomeIdx).Nodup) :
    ((sortByIdx (collectImages l)).map Prod.fst).Nodup := by
  have h1 : (collectImages l).map Prod.fst |>.Nodup :=
    (collectImages_keys_sublist l).nodup hnodup
  have h2 : ((sortByIdx (collectImages l)).map Prod.fst).Perm
      ((collectImages l).map Prod.fst) :=
    (List.perm_insertionSort idxLe (collectImages l)).map Prod.fst
  exact h2.nodup_iff.mpr h1

lemma sortByIdx_pairwise {α : Type} {l : List (ItemOutcome α)}
    (hnodup : (l.map outcomeIdx).Nodup) :
    List.Pairwise idxLt (sortByIdx (collectImages l)) :=
  pairwise_idxLt_of_sorted_nodup
    (List.sorted_insertionSort idxLe (collectImages l))
    (sortByIdx_keys_nodup hnodup)

lemma sortByIdx_congr {α : Type} {l l' : List (ItemOutcome α)}
    (hperm : l.Perm l') (hnodup : (l.map outcomeIdx).Nodup) :
    sortByIdx (collectImages l) = sortByIdx (collectImages l') := by
  have hci : (collectImages l).Perm (collectImages l') := by
    rw [collectImages_eq_filterMap, collectImages_eq_filterMap]
    exact hperm.filterMap _
  have hperm2 : (sortByIdx (collectImages l)).Perm (sortByIdx (collectImages l')) :=
    ((List.perm_insertionSort idxLe (collectImages l)).trans hci).trans
      (List.perm_insertionSort idxLe (collectImages l')).symm
  have hn' : (l'.map outcomeIdx).Nodup := ((hperm.map outcomeIdx).nodup_iff).mp hnodup
  exact List.eq_of_perm_of_sorted hperm2
    (sortByIdx_pairwise hnodup) (sortByIdx_pairwise hn')

lemma collectImages_isEmpty_iff {α : Type} (l : List (ItemOutcome α)) :
    (collectImages l).isEmpty = true ↔ ∀ o ∈ l, isSuccessOutcome o = false := by
  rw [collectImages_eq_filterMap, List.isEmpty_iff, List.filterMap_eq_nil]
  constructor
  · intro h o ho
    have := h o ho
    cases o with
    | success i img => simp at this
    | failure i e => rfl
  · intro h o ho
    have := h o ho
    cases o with
    | success i img => simp [isSuccessOutcome] at this
    | failure i e => rfl

/-- C3: for every fan-out collection (of any batch size) the call returns
normally exactly when at least one pipeline succeeded; the returned
images are re-sorted strictly by original submission index regardless of
completion order (any two completion orders of the same outcomes give
identical output); and when every pipeline failed, a single aggregated
error is raised whose detail lists at most three per-item error
summaries. -/
theorem c3_concurrent_fanout {α : Type} (completed completed' : List (ItemOutcome α))
    (hperm : completed.Perm completed')
    (hnodup : (completed.map outcomeIdx).Nodup) :
    (exceptIsOk (generate_image_batch completed) = true
      ↔ ∃ o ∈ completed, isSuccessOutcome o = true)
    ∧ exceptOkValue (generate_image_batch completed)
        = exceptOkValue (generate_image_batch completed')
    ∧ List.Pairwise idxLt (sortByIdx (collectImages completed))
    ∧ (sortByIdx (collectImages completed)).Perm (collectImages completed)
    ∧ (∀ errs, generate_image_batch completed = .error errs →
        errs = (collectErrors completed).take 3 ∧ errs.length ≤ 3) := by
  have hci : (collectImages completed).Perm (collectImages completed') := by
    rw [collectImages_eq_filterMap, collectImages_eq_filterMap]
    exact hperm.filterMap _
  refine ⟨?_, ?_, sortByIdx_pairwise hnodup,
    List.perm_insertionSort idxLe (collectImages completed), ?_⟩
  · unfold generate_image_batch
    by_cases h : (collectImages completed).isEmpty
    · simp only [h, if_true]
      constructor
      · intro hx
        exact absurd hx (by simp [exceptIsOk])
      · intro ⟨o, ho, hs⟩
        have := (collectImages_isEmpty_iff completed).mp h o ho
        rw [hs] at this
        exact absurd this (by simp)
    · simp only [h, if_false]
      constructor
      · intro _
        by_contra hx
        push_neg at hx
        have : ∀ o ∈ completed, isSuccessOutcome o = false := by
          intro o ho
          have := hx o ho
          cases hcase : isSuccessOutcome o
          · rfl
          · exact absurd hcase this
        exact h ((collectImages_isEmpty_iff completed).mpr this)
      · intro _
        rfl
  · unfold generate_image_batch
    have hempty : (collectImages completed).isEmpty
        = (collectImages completed').isEmpty := by
      have hlen := hci.length_eq
      cases hc1 : collectImages completed <;> cases hc2 : collectImages completed' <;>
        simp_all
    by_cases h : (collectImages completed).isEmpty = true
    · rw [if_pos h, if_pos (by rw [← hempty]; exact h)]
      rfl
    · rw [if_neg h, if_neg (by rw [← hempty]; exact h)]
      rw [sortByIdx_congr hperm hnodup]
  · intro errs herr
    unfold generate_image_batch at herr
    by_cases h : (collectImages completed).isEmpty
    · simp only [h, if_true] at herr
      cases herr
      refine ⟨rfl, ?_⟩
      have := List.length_take 3 (collectErrors completed)
      omega
    · simp [h] at herr

/-- Witness for C3: two completion orders of the same three outcomes
(one failure, two successes with indices 3 and 1) yield the same output,
and the batch returns normally because one pipeline succeeded. -/
theorem c3_concurrent_fanout_witness :
    exceptOkValue (generate_image_batch
        [ItemOutcome.failure 2 "boom", ItemOutcome.success 3 (30 : Nat),
         ItemOutcome.success 1 10])
      = exceptOkValue (generate_image_batch
        [ItemOutcome.success 1 (10 : Nat), ItemOutcome.failure 2 "boom",
         ItemOutcome.success 3 30])
    ∧ exceptIsOk (generate_image_batch
        [ItemOutcome.failure 2 "boom", ItemOutcome.success 3 (30 : Nat),
         ItemOutcome.success 1 10]) = true := by
  have h := c3_concurrent_fanout
    [ItemOutcome.failure 2 "boom", ItemOutcome.success 3 (30 : Nat),
     ItemOutcome.success 1 10]
    [ItemOutcome.success 1 10, ItemOutcome.failure 2 "boom",
     ItemOutcome.success 3 30]
    (by decide) (by decide)
  exact ⟨h.2.1, h.1.mpr ⟨ItemOutcome.success 3 30, by decide, rfl⟩⟩

/-! ## Adaptive rate limiting (spec §4.6 RateLimiter / BatchManager,
§3 RateLimiterState) -/

/-- Modelled from the spec: the RateLimiter/BatchManager component of
§4.6 (state in §3: baseline interval, current interval, failure and
consecutive-throttle counters).  The implementation is not among the
provided sources: `nodes/__init__.py` imports the batch node test
modules that carry it, but those files are missing, and the
`batch_processor.py` that is present only detects throttling signals in
error strings.  Per the spec, `recordFailure(isRateLimitSignal)`
increments the failure count and, when the failure is a throttling
signal, multiplies the current interval by a fixed factor; the interval
is never reduced within a session. -/
structure RateLimiterState where
  baselineInterval : ℚ
  currentInterval : ℚ
  failureCount : Nat
  consecutiveThrottle : Nat
  deriving DecidableEq, Repr

/-- Modelled from the spec: `start(total)` resets counters; the current
interval starts at the baseline. -/
def initRateLimiter (baseline : ℚ) : RateLimiterState :=
  ⟨baseline, baseline, 0, 0⟩

/-- A throttling signal per the spec's glossary: HTTP 429, or a 502/503
interpreted heuristically as server overload (the same three codes
`batch_processor.py` greps for in error strings). -/
def isThrottleSignal (status : Nat) : Bool :=
  status == 429 || status == 502 || status == 503

/-- Modelled from the spec: `recordFailure(isRateLimitSignal)`. -/
def recordFailure (factor : ℚ) (isRateLimitSignal : Bool)
    (s : RateLimiterState) : RateLimiterState :=
  { s with
    failureCount := s.failureCount + 1
    currentInterval :=
      if isRateLimitSignal then s.currentInterval * factor else s.currentInterval
    consecutiveThrottle :=
      if isRateLimitSignal then s.consecutiveThrottle + 1 else 0 }

/-- One item of a batch session as the rate limiter sees it: a success
(`recordSuccess` feeds only the rolling latency average; the interval is
untouched) or a failure with the HTTP status that caused it. -/
inductive RLEvent where
  | success
  | failure (status : Nat)
  deriving DecidableEq, Repr

/-- Advance the rate limiter by one recorded event. -/
def rlStep (factor : ℚ) (s : RateLimiterState) : RLEvent → RateLimiterState
  | .success => s
  | .failure st => recordFailure factor (isThrottleSignal st) s

/-- Run a whole batch session's event list through the rate limiter. -/
def rlRun (factor : ℚ) (s : RateLimiterState) : List RLEvent → RateLimiterState
  | [] => s
  | e :: es => rlRun factor (rlStep factor s e) es

lemma rlStep_le (factor : ℚ) (hf : 1 < factor) (s : RateLimiterState)
    (h : 0 < s.currentInterval) (e : RLEvent) :
    0 < (rlStep factor s e).currentInterval
      ∧ s.currentInterval ≤ (rlStep factor s e).currentInterval := by
  cases e with
  | success => exact ⟨h, le_refl _⟩
  | failure st =>
    by_cases hsig : isThrottleSignal st = true
    · simp only [rlStep, recordFailure, hsig, if_true]
      exact ⟨mul_pos h (lt_trans zero_lt_one hf),
        le_mul_of_one_le_right (le_of_lt h) (le_of_lt hf)⟩
    · simp only [rlStep, recordFailure, hsig, if_false]
      exact ⟨h, le_refl _⟩

lemma rlRun_le (factor : ℚ) (hf : 1 < factor) :
    ∀ (es : List RLEvent) (s : RateLimiterState), 0 < s.currentInterval →
      0 < (rlRun factor s es).currentInterval
        ∧ s.currentInterval ≤ (rlRun factor s es).currentInterval := by
  intro es
  induction es with
  | nil => exact fun s h => ⟨h, le_refl _⟩
  | cons e es ih =>
    intro s h
    obtain ⟨hs1, hs2⟩ := rlStep_le factor hf s h e
    obtain ⟨h1, h2⟩ := ih (rlStep factor s e) hs1
    exact ⟨h1, le_trans hs2 h2⟩

lemma rlRun_append (factor : ℚ) (s : RateLimiterState)
    (es more : List RLEvent) :
    rlRun factor s (es ++ more) = rlRun factor (rlRun factor s es) more := by
  induction es generalizing s with
  | nil => rfl
  | cons e es ih => simp [rlRun, ih]

/-- C8: throughout every batch session, the current inter-request
interval is at least the baseline and never decreases as the session
extends, and every recorded failure carrying a throttling signal (HTTP
429, or a 502/503 read as server overload) strictly increases it.
Spec-modelled: see `RateLimiterState`. -/
theorem c8_rate_limiter_backoff (baseline factor : ℚ) (events : List RLEvent)
    (hb : 0 < baseline) (hf : 1 < factor) :
    baseline ≤ (rlRun factor (initRateLimiter baseline) events).currentInterval
    ∧ (∀ more : List RLEvent,
        (rlRun factor (initRateLimiter baseline) events).currentInterval
          ≤ (rlRun factor (initRateLimiter baseline) (events ++ more)).currentInterval)
    ∧ (∀ st, isThrottleSignal st = true →
        (rlRun factor (initRateLimiter baseline) events).currentInterval
          < (rlRun factor (initRateLimiter baseline)
              (events ++ [RLEvent.failure st])).currentInterval)
    ∧ isThrottleSignal 429 = true ∧ isThrottleSignal 502 = true
    ∧ isThrottleSignal 503 = true := by
  have hrun := rlRun_le factor hf events (initRateLimiter baseline) hb
  refine ⟨hrun.2, ?_, ?_, rfl, rfl, rfl⟩
  · intro more
    rw [rlRun_append]
    exact (rlRun_le factor hf more _ hrun.1).2
  · intro st hsig
    rw [rlRun_append]
    simp only [rlRun, rlStep, recordFailure, hsig, if_true]
    exact (lt_mul_iff_one_lt_right hrun.1).mpr hf

/-- Witness for C8: baseline 1, factor 2, one throttled failure keeps the
interval at or above the baseline, and a 429 failure appended to the
empty session strictly increases the interval. -/
theorem c8_rate_limiter_backoff_witness :
    (1 : ℚ) ≤ (rlRun 2 (initRateLimiter 1) [RLEvent.failure 429]).currentInterval
    ∧ (rlRun 2 (initRateLimiter 1) []).currentInterval
        < (rlRun 2 (initRateLimiter 1) ([] ++ [RLEvent.failure 429])).currentInterval := by
  have h := c8_rate_limiter_backoff 1 2 [RLEvent.failure 429] (by norm_num) (by norm_num)
  have h0 := c8_rate_limiter_backoff 1 2 [] (by norm_num) (by norm_num)
  exact ⟨h.1, h0.2.2.1 429 rfl⟩

/-! ## Node module imports (nodes/image_to_image.py lines 10-31,
nodes/batch_processor.py lines 9-36, utils.py top-level names)

Both node modules import `sanitize_error_message` from the utilities
module — first relatively, and on `ImportError` again absolutely — but
`utils.py` defines no such name, so either path raises `ImportError` and
the module never loads.  The import mechanism is embedded as name
resolution against the list of top-level names `utils.py` defines
(imports, constants, the logger and every function definition). -/

/-- Every top-level name the `utils.py` module object carries. -/
def utils_module_names : List String :=
  ["requests", "base64", "io", "json", "np", "torch", "Image", "time",
   "logging", "os", "glob", "Path", "urllib3", "logger",
   "API_BASE_URL", "PROXY_URL", "PROXIES",
   "parse_api_error", "format_json_for_display",
   "MODEL_NAME_MAPPING", "CURRENT_MODEL",
   "GEMINI_URL_MODELS", "GEMINI_B64_MODELS",
   "ASPECT_RATIO_TO_1K_SIZE", "IMAGE_SIZE_TO_MODEL_SUFFIX",
   "get_official_model_name", "is_openai_format_model",
   "get_openai_model_and_size", "call_openai_format_api",
   "_call_openai_image_generation", "_call_openai_image_edit",
   "_parse_openai_response", "call_nano_banana_api",
   "extract_image_from_gemini_response", "decode_base64_image",
   "download_image_from_url", "UPSCALE_METHODS", "MAX_DIM_OPTIONS",
   "resize_image_to_max_dim", "resize_comfy_image_to_max_dim",
   "pil_to_comfy_image", "comfy_image_to_base64", "process_api_response",
   "format_time", "load_images_from_folder", "save_image_to_folder"]

/-- The names `nodes/image_to_image.py` imports from the utilities module
(identical in its relative and absolute import statements). -/
def image_to_image_imported_names : List String :=
  ["call_nano_banana_api", "process_api_response", "pil_to_comfy_image",
   "comfy_image_to_base64", "resize_image_to_max_dim", "UPSCALE_METHODS",
   "MAX_DIM_OPTIONS", "sanitize_error_message"]

/-- The names `nodes/batch_processor.py` imports from the utilities
module (identical in both import statements). -/
def batch_processor_imported_names : List String :=
  ["call_nano_banana_api", "process_api_response", "pil_to_comfy_image",
   "comfy_image_to_base64", "load_images_from_folder",
   "save_image_to_folder", "format_time", "resize_image_to_max_dim",
   "UPSCALE_METHODS", "MAX_DIM_OPTIONS", "sanitize_error_message"]

/-- The names `nodes/text_to_image.py` imports (all defined). -/
def text_to_image_imported_names : List String :=
  ["call_nano_banana_api", "process_api_response", "pil_to_comfy_image",
   "resize_image_to_max_dim", "UPSCALE_METHODS", "MAX_DIM_OPTIONS"]

/-- The first requested name the module does not define, if any. -/
def firstMissingImport (exports names : List String) : Option String :=
  names.find? (fun n => !(exports.contains n))

/-- `from <module> import a, b, ...`: succeeds iff every name resolves;
otherwise `ImportError: cannot import name ...`. -/
def importFrom (exports names : List String) : Except String Unit :=
  match firstMissingImport exports names with
  | some n => .error ("cannot import name " ++ n)
  | none => .ok ()

/-- The node modules try a relative `from ..utils import ...` first and,
on `ImportError`, fall back to an absolute `from utils import ...`: the
fallback resolves the same name list against the same utilities module,
so it fails whenever the relative import failed on a missing name. -/
def loadWithFallback (exports names : List String) : Except String Unit :=
  match importFrom exports names with
  | .ok _ => .ok ()
  | .error _ => importFrom exports names

/-- C9: loading the image-to-image node module or the batch-processor
node module always fails with an import error, because both request the
name `sanitize_error_message` from the utilities module on both import
paths and the utilities module defines no such name (so no operation of
these two nodes can ever execute); the text-to-image module, which does
not request that name, loads. -/
theorem c9_sanitize_import_failure :
    utils_module_names.contains "sanitize_error_message" = false
    ∧ loadWithFallback utils_module_names image_to_image_imported_names
        = .error ("cannot import name " ++ "sanitize_error_message")
    ∧ loadWithFallback utils_module_names batch_processor_imported_names
        = .error ("cannot import name " ++ "sanitize_error_message")
    ∧ loadWithFallback utils_module_names text_to_image_imported_names
        = .ok () := by
  refine ⟨rfl, rfl, rfl, rfl⟩

end O1Key
